import Mathlib

/-
Verification of gl::load_shaders (vita3k/glutil/src/shader.cpp).

The function is sequential glue over the OpenGL driver.  We embed it as a
function from a driver oracle (the answers the driver and the asset reader
would give: file contents, compile and link status flags, info-log texts,
fresh handle values, and whether the owning-wrapper init call succeeds) to
the returned UniqueGLObject together with the trace of driver calls and log
messages the function performs, in order.
-/

namespace gl

/-- GL enum value of GL_VERTEX_SHADER (0x8B31). -/
def GL_VERTEX_SHADER : Nat := 35633

/-- GL enum value of GL_FRAGMENT_SHADER (0x8B30). -/
def GL_FRAGMENT_SHADER : Nat := 35632

/-- The deleter callback bound into an owning wrapper. -/
inductive GLDeleter where
  | glDeleteProgram
  | glDeleteShader
  deriving DecidableEq

/-- One observable step of load_shaders: a driver call or a log message.
Queries that only read status or sizes (glGetShaderiv, glGetProgramiv,
glGetShaderInfoLog, glGetProgramInfoLog) are modelled through the oracle
fields of GLDriver rather than as events. -/
inductive GLEvent where
  | glCreateShader (kind : Nat) (id : Nat)
  | readAssetRaw (path : String) (contents : String)
  | glShaderSource (id : Nat) (sources : List String)
  | glCompileShader (id : Nat)
  | logError (msg : String)
  | glCreateProgram (id : Nat)
  | glAttachShader (prog : Nat) (sh : Nat)
  | glLinkProgram (prog : Nat)
  | glDetachShader (prog : Nat) (sh : Nat)
  | glDeleteShader (id : Nat)
  | glDeleteProgram (id : Nat)
  deriving DecidableEq

/-- The environment of one call: target platform, what read_asset_raw
returns for the two paths (the raw bytes, held here as the string they are
memcpy-ed into; absence of the file is an empty sequence), the handles the
driver hands out, the status flags the driver reports, the info-log texts,
and whether GLObject.init succeeds.  GLObject itself (glutil/object.h) is
not part of this file; its init call is `Modelled from the spec:` an owning
handle type constructed from a native id and a deleter, and the call site
shows it can fail, so the oracle carries its outcome as a flag. -/
structure GLDriver where
  android : Bool
  vsRaw : String
  fsRaw : String
  vsId : Nat
  fsId : Nat
  progId : Nat
  vsCompileOk : Bool
  fsCompileOk : Bool
  linkOk : Bool
  vsInfoLog : String
  fsInfoLog : String
  progInfoLog : String
  initOk : Bool
  deriving DecidableEq

/-- The result: empty, or an owning wrapper of a native id and a deleter. -/
inductive UniqueGLObject where
  | empty
  | obj (id : Nat) (deleter : GLDeleter)
  deriving DecidableEq

/-- The platform preamble chosen at lines 40 to 44 of shader.cpp:
ANDROID gets a GLES 3.0 version plus precision header, other targets get
the desktop 4.10 core header. -/
def gl_version_string (android : Bool) : String :=
  if android then "#version 300 es\nprecision highp float;\n"
  else "#version 410 core\n"

/-- Shallow embedding of gl::load_shaders.  Mirrors shader.cpp line by
line: create the two shader objects, read both files, bail out on an empty
read logging the vertex path, compile the vertex then the fragment stage
bailing out with the info log on a failed status, create and link the
program bailing out likewise, detach and delete the stage objects, then
wrap the program handle with glDeleteProgram, returning empty if the
wrapper init call fails. -/
def load_shaders (d : GLDriver) (vertex_file_path fragment_file_path : String) :
    UniqueGLObject × List GLEvent :=
  let vs := d.vsId
  let fs := d.fsId
  let gl_version := gl_version_string d.android
  let vs_code := d.vsRaw
  let fs_code := d.fsRaw
  let t0 : List GLEvent :=
    [GLEvent.glCreateShader GL_VERTEX_SHADER vs, GLEvent.glCreateShader GL_FRAGMENT_SHADER fs,
     GLEvent.readAssetRaw vertex_file_path vs_code,
     GLEvent.readAssetRaw fragment_file_path fs_code]
  if (vs_code.isEmpty || fs_code.isEmpty) = true then
    (UniqueGLObject.empty,
      t0 ++ [GLEvent.logError ("Couldn\x27t open shader: " ++ vertex_file_path)])
  else
    let t1 := t0 ++ [GLEvent.glShaderSource vs [gl_version, vs_code],
      GLEvent.glCompileShader vs]
    if d.vsCompileOk = false then
      (UniqueGLObject.empty,
        t1 ++ [GLEvent.logError ("Error compiling vertex shader: " ++ d.vsInfoLog ++ "\n")])
    else
      let t2 := t1 ++ [GLEvent.glShaderSource fs [gl_version, fs_code],
        GLEvent.glCompileShader fs]
      if d.fsCompileOk = false then
        (UniqueGLObject.empty,
          t2 ++ [GLEvent.logError ("Error compiling fragment shader: " ++ d.fsInfoLog ++ "\n")])
      else
        let program := d.progId
        let t3 := t2 ++ [GLEvent.glCreateProgram program,
          GLEvent.glAttachShader program vs, GLEvent.glAttachShader program fs,
          GLEvent.glLinkProgram program]
        if d.linkOk = false then
          (UniqueGLObject.empty,
            t3 ++ [GLEvent.logError ("Error linking shader program: " ++ d.progInfoLog ++ "\n")])
        else
          let t4 := t3 ++ [GLEvent.glDetachShader program vs,
            GLEvent.glDetachShader program fs,
            GLEvent.glDeleteShader vs, GLEvent.glDeleteShader fs]
          if d.initOk = false then
            (UniqueGLObject.empty, t4)
          else
            (UniqueGLObject.obj program GLDeleter.glDeleteProgram, t4)

/-- Whether an event is a log message. -/
def isLog : GLEvent → Bool
  | GLEvent.logError _ => true
  | _ => false

/-- The full sequence of driver calls of a run in which every stage
succeeds, in source order. -/
def successTrace (d : GLDriver) (vp fp : String) : List GLEvent :=
  [GLEvent.glCreateShader GL_VERTEX_SHADER d.vsId,
   GLEvent.glCreateShader GL_FRAGMENT_SHADER d.fsId,
   GLEvent.readAssetRaw vp d.vsRaw, GLEvent.readAssetRaw fp d.fsRaw,
   GLEvent.glShaderSource d.vsId [gl_version_string d.android, d.vsRaw],
   GLEvent.glCompileShader d.vsId,
   GLEvent.glShaderSource d.fsId [gl_version_string d.android, d.fsRaw],
   GLEvent.glCompileShader d.fsId,
   GLEvent.glCreateProgram d.progId,
   GLEvent.glAttachShader d.progId d.vsId, GLEvent.glAttachShader d.progId d.fsId,
   GLEvent.glLinkProgram d.progId,
   GLEvent.glDetachShader d.progId d.vsId, GLEvent.glDetachShader d.progId d.fsId,
   GLEvent.glDeleteShader d.vsId, GLEvent.glDeleteShader d.fsId]

/-- Branch equation: either file empty. -/
theorem load_shaders_empty_case (d : GLDriver) (vp fp : String)
    (h : (d.vsRaw.isEmpty || d.fsRaw.isEmpty) = true) :
    load_shaders d vp fp = (UniqueGLObject.empty,
      [GLEvent.glCreateShader GL_VERTEX_SHADER d.vsId,
       GLEvent.glCreateShader GL_FRAGMENT_SHADER d.fsId,
       GLEvent.readAssetRaw vp d.vsRaw, GLEvent.readAssetRaw fp d.fsRaw,
       GLEvent.logError ("Couldn\x27t open shader: " ++ vp)]) := by
  simp [load_shaders, h]

/-- Branch equation: files nonempty, vertex compilation fails. -/
theorem load_shaders_vs_fail_case (d : GLDriver) (vp fp : String)
    (h : (d.vsRaw.isEmpty || d.fsRaw.isEmpty) = false)
    (hv : d.vsCompileOk = false) :
    load_shaders d vp fp = (UniqueGLObject.empty,
      [GLEvent.glCreateShader GL_VERTEX_SHADER d.vsId,
       GLEvent.glCreateShader GL_FRAGMENT_SHADER d.fsId,
       GLEvent.readAssetRaw vp d.vsRaw, GLEvent.readAssetRaw fp d.fsRaw,
       GLEvent.glShaderSource d.vsId [gl_version_string d.android, d.vsRaw],
       GLEvent.glCompileShader d.vsId,
       GLEvent.logError ("Error compiling vertex shader: " ++ d.vsInfoLog ++ "\n")]) := by
  simp [load_shaders, h, hv]

/-- Branch equation: vertex stage compiles, fragment compilation fails. -/
theorem load_shaders_fs_fail_case (d : GLDriver) (vp fp : String)
    (h : (d.vsRaw.isEmpty || d.fsRaw.isEmpty) = false)
    (hv : d.vsCompileOk = true) (hf : d.fsCompileOk = false) :
    load_shaders d vp fp = (UniqueGLObject.empty,
      [GLEvent.glCreateShader GL_VERTEX_SHADER d.vsId,
       GLEvent.glCreateShader GL_FRAGMENT_SHADER d.fsId,
       GLEvent.readAssetRaw vp d.vsRaw, GLEvent.readAssetRaw fp d.fsRaw,
       GLEvent.glShaderSource d.vsId [gl_version_string d.android, d.vsRaw],
       GLEvent.glCompileShader d.vsId,
       GLEvent.glShaderSource d.fsId [gl_version_string d.android, d.fsRaw],
       GLEvent.glCompileShader d.fsId,
       GLEvent.logError ("Error compiling fragment shader: " ++ d.fsInfoLog ++ "\n")]) := by
  simp [load_shaders, h, hv, hf]

/-- Branch equation: both stages compile, the link fails. -/
theorem load_shaders_link_fail_case (d : GLDriver) (vp fp : String)
    (h : (d.vsRaw.isEmpty || d.fsRaw.isEmpty) = false)
    (hv : d.vsCompileOk = true) (hf : d.fsCompileOk = true) (hl : d.linkOk = false) :
    load_shaders d vp fp = (UniqueGLObject.empty,
      [GLEvent.glCreateShader GL_VERTEX_SHADER d.vsId,
       GLEvent.glCreateShader GL_FRAGMENT_SHADER d.fsId,
       GLEvent.readAssetRaw vp d.vsRaw, GLEvent.readAssetRaw fp d.fsRaw,
       GLEvent.glShaderSource d.vsId [gl_version_string d.android, d.vsRaw],
       GLEvent.glCompileShader d.vsId,
       GLEvent.glShaderSource d.fsId [gl_version_string d.android, d.fsRaw],
       GLEvent.glCompileShader d.fsId,
       GLEvent.glCreateProgram d.progId,
       GLEvent.glAttachShader d.progId d.vsId, GLEvent.glAttachShader d.progId d.fsId,
       GLEvent.glLinkProgram d.progId,
       GLEvent.logError ("Error linking shader program: " ++ d.progInfoLog ++ "\n")]) := by
  simp [load_shaders, h, hv, hf, hl]

/-- Branch equation: the link succeeds; the result depends only on the
init flag and the trace is the full success trace. -/
theorem load_shaders_linked_case (d : GLDriver) (vp fp : String)
    (h : (d.vsRaw.isEmpty || d.fsRaw.isEmpty) = false)
    (hv : d.vsCompileOk = true) (hf : d.fsCompileOk = true) (hl : d.linkOk = true) :
    load_shaders d vp fp =
      ((if d.initOk = false then UniqueGLObject.empty
        else UniqueGLObject.obj d.progId GLDeleter.glDeleteProgram),
       successTrace d vp fp) := by
  by_cases hi : d.initOk = false <;>
    simp [load_shaders, successTrace, h, hv, hf, hl, hi]

/-- A driver on which every stage succeeds. -/
def dAllOk : GLDriver :=
  ⟨false, "v", "f", 1, 2, 3, true, true, true, "", "", "", true⟩

/-- A driver whose vertex file reads back empty. -/
def dEmptyVs : GLDriver :=
  ⟨false, "", "f", 1, 2, 3, true, true, true, "", "", "", true⟩

/-- A driver whose vertex file reads back nonempty but whose fragment file
reads back empty. -/
def dEmptyFs : GLDriver :=
  ⟨false, "v", "", 1, 2, 3, true, true, true, "", "", "", true⟩

/-- A driver on which the vertex stage fails to compile. -/
def dVsFail : GLDriver :=
  ⟨false, "v", "f", 1, 2, 3, false, true, true, "bad vertex", "", "", true⟩

/-- A driver on which both stages compile and the program links, but the
wrapper init call fails. -/
def dInitFail : GLDriver :=
  ⟨false, "v", "f", 1, 2, 3, true, true, true, "", "", "", false⟩

/-- C1: if load_shaders returns a non-empty wrapper, the wrapped handle is
the program handle, the driver reported GL_LINK_STATUS true for it, and
glLinkProgram was called on it before the wrap; an unlinked or link-failed
program is never wrapped. -/
theorem load_shaders_obj_implies_linked (d : GLDriver) (vp fp : String)
    (h : (load_shaders d vp fp).1 ≠ UniqueGLObject.empty) :
    d.linkOk = true ∧
      (load_shaders d vp fp).1 = UniqueGLObject.obj d.progId GLDeleter.glDeleteProgram ∧
      GLEvent.glLinkProgram d.progId ∈ (load_shaders d vp fp).2 := by
  rcases Bool.eq_false_or_eq_true (d.vsRaw.isEmpty || d.fsRaw.isEmpty) with he | he
  · rw [load_shaders_empty_case d vp fp he] at h; simp at h
  · rcases Bool.eq_false_or_eq_true d.vsCompileOk with hv | hv
    · rcases Bool.eq_false_or_eq_true d.fsCompileOk with hf | hf
      · rcases Bool.eq_false_or_eq_true d.linkOk with hl | hl
        · rcases Bool.eq_false_or_eq_true d.initOk with hi | hi
          · rw [load_shaders_linked_case d vp fp he hv hf hl]
            simp [hi, successTrace, hl]
          · rw [load_shaders_linked_case d vp fp he hv hf hl] at h; simp [hi] at h
        · rw [load_shaders_link_fail_case d vp fp he hv hf hl] at h; simp at h
      · rw [load_shaders_fs_fail_case d vp fp he hv hf] at h; simp at h
    · rw [load_shaders_vs_fail_case d vp fp he hv] at h; simp at h


/-- Witness for C1 on the all-success driver. -/
theorem load_shaders_obj_implies_linked_witness :
    (load_shaders dAllOk "vert.glsl" "frag.glsl").1 ≠ UniqueGLObject.empty ∧
      (dAllOk.linkOk = true ∧
        (load_shaders dAllOk "vert.glsl" "frag.glsl").1 =
          UniqueGLObject.obj dAllOk.progId GLDeleter.glDeleteProgram ∧
        GLEvent.glLinkProgram dAllOk.progId ∈ (load_shaders dAllOk "vert.glsl" "frag.glsl").2) :=
  ⟨by decide, load_shaders_obj_implies_linked dAllOk "vert.glsl" "frag.glsl" (by decide)⟩

/-- C2 counterexample: with an empty vertex file, the call logs and
returns empty, yet two native shader objects HAVE been created on this
path (glCreateShader runs at function entry, before the reads), refuting
the claim that no native objects are created. -/
theorem load_shaders_empty_path_creates_shaders :
    dEmptyVs.vsRaw.isEmpty = true ∧
      (load_shaders dEmptyVs "vert.glsl" "frag.glsl").1 = UniqueGLObject.empty ∧
      GLEvent.glCreateShader GL_VERTEX_SHADER dEmptyVs.vsId ∈
        (load_shaders dEmptyVs "vert.glsl" "frag.glsl").2 ∧
      GLEvent.glCreateShader GL_FRAGMENT_SHADER dEmptyVs.fsId ∈
        (load_shaders dEmptyVs "vert.glsl" "frag.glsl").2 := by
  decide

/-- C2 amended: on an empty read the call logs an error and returns an
empty result, and no program object is created; however the two shader
objects were already created at entry, before the reads. -/
theorem load_shaders_empty_input_logs_and_returns_empty (d : GLDriver) (vp fp : String)
    (h : (d.vsRaw.isEmpty || d.fsRaw.isEmpty) = true) :
    (load_shaders d vp fp).1 = UniqueGLObject.empty ∧
      GLEvent.logError ("Couldn\x27t open shader: " ++ vp) ∈ (load_shaders d vp fp).2 ∧
      (∀ i, GLEvent.glCreateProgram i ∉ (load_shaders d vp fp).2) ∧
      GLEvent.glCreateShader GL_VERTEX_SHADER d.vsId ∈ (load_shaders d vp fp).2 ∧
      GLEvent.glCreateShader GL_FRAGMENT_SHADER d.fsId ∈ (load_shaders d vp fp).2 := by
  rw [load_shaders_empty_case d vp fp h]
  simp

/-- Witness for the amended C2 on the empty-vertex driver. -/
theorem load_shaders_empty_input_logs_and_returns_empty_witness :
    (dEmptyVs.vsRaw.isEmpty || dEmptyVs.fsRaw.isEmpty) = true ∧
      ((load_shaders dEmptyVs "vert.glsl" "frag.glsl").1 = UniqueGLObject.empty ∧
        GLEvent.logError ("Couldn\x27t open shader: " ++ "vert.glsl") ∈
          (load_shaders dEmptyVs "vert.glsl" "frag.glsl").2 ∧
        (∀ i, GLEvent.glCreateProgram i ∉ (load_shaders dEmptyVs "vert.glsl" "frag.glsl").2) ∧
        GLEvent.glCreateShader GL_VERTEX_SHADER dEmptyVs.vsId ∈
          (load_shaders dEmptyVs "vert.glsl" "frag.glsl").2 ∧
        GLEvent.glCreateShader GL_FRAGMENT_SHADER dEmptyVs.fsId ∈
          (load_shaders dEmptyVs "vert.glsl" "frag.glsl").2) :=
  ⟨by decide,
    load_shaders_empty_input_logs_and_returns_empty dEmptyVs "vert.glsl" "frag.glsl" (by decide)⟩

/-- C3 counterexample: when the vertex stage fails to compile the function
returns, the two shader objects were created at entry (so no creation
short-circuit applies), yet neither is deleted before the return. -/
theorem load_shaders_compile_fail_leaks_shaders :
    dVsFail.vsRaw.isEmpty = false ∧ dVsFail.vsCompileOk = false ∧
      GLEvent.glCreateShader GL_VERTEX_SHADER dVsFail.vsId ∈
        (load_shaders dVsFail "vert.glsl" "frag.glsl").2 ∧
      GLEvent.glDeleteShader dVsFail.vsId ∉
        (load_shaders dVsFail "vert.glsl" "frag.glsl").2 ∧
      GLEvent.glDeleteShader dVsFail.fsId ∉
        (load_shaders dVsFail "vert.glsl" "frag.glsl").2 := by
  decide

/-- C3 amended: the intermediate shader objects are deleted before return
exactly on the runs that reach a successful link (the success path and the
wrapper-init-failure path); on the empty-read, compile-failure and
link-failure exits the shader objects created at entry are not deleted. -/
theorem shader_objects_deleted_iff_link_success (d : GLDriver) (vp fp : String) :
    (GLEvent.glDeleteShader d.vsId ∈ (load_shaders d vp fp).2 ∧
        GLEvent.glDeleteShader d.fsId ∈ (load_shaders d vp fp).2) ↔
      ((d.vsRaw.isEmpty || d.fsRaw.isEmpty) = false ∧ d.vsCompileOk = true ∧
        d.fsCompileOk = true ∧ d.linkOk = true) := by
  rcases Bool.eq_false_or_eq_true (d.vsRaw.isEmpty || d.fsRaw.isEmpty) with he | he
  · rw [load_shaders_empty_case d vp fp he]; simp [he]
  · rcases Bool.eq_false_or_eq_true d.vsCompileOk with hv | hv
    · rcases Bool.eq_false_or_eq_true d.fsCompileOk with hf | hf
      · rcases Bool.eq_false_or_eq_true d.linkOk with hl | hl
        · rw [load_shaders_linked_case d vp fp he hv hf hl]
          simp [successTrace, he, hv, hf, hl]
        · rw [load_shaders_link_fail_case d vp fp he hv hf hl]; simp [hl]
      · rw [load_shaders_fs_fail_case d vp fp he hv hf]; simp [hf]
    · rw [load_shaders_vs_fail_case d vp fp he hv]; simp [hv]

/-- C4 counterexample: a call on which both stages compile and the program
links but the wrapper init call fails is a failure (the result is empty),
yet it emits no log message at all, refuting uniform failure reporting. -/
theorem init_fail_returns_empty_without_log :
    (load_shaders dInitFail "vert.glsl" "frag.glsl").1 = UniqueGLObject.empty ∧
      (load_shaders dInitFail "vert.glsl" "frag.glsl").2.filter isLog = [] := by
  decide

/-- C4 amended: the three spec failure modes each log one message and
return an empty result (the compile and link failures include the driver
info-log text, the empty-read failure names the vertex path), while the
wrapper-init failure returns an empty result without logging; the function
is total, so no exception and no retry exists. -/
theorem failure_reporting_by_mode (d : GLDriver) (vp fp : String) :
    ((d.vsRaw.isEmpty || d.fsRaw.isEmpty) = true →
      (load_shaders d vp fp).1 = UniqueGLObject.empty ∧
        GLEvent.logError ("Couldn\x27t open shader: " ++ vp) ∈ (load_shaders d vp fp).2) ∧
    ((d.vsRaw.isEmpty || d.fsRaw.isEmpty) = false → d.vsCompileOk = false →
      (load_shaders d vp fp).1 = UniqueGLObject.empty ∧
        GLEvent.logError ("Error compiling vertex shader: " ++ d.vsInfoLog ++ "\n") ∈
          (load_shaders d vp fp).2) ∧
    ((d.vsRaw.isEmpty || d.fsRaw.isEmpty) = false → d.vsCompileOk = true →
      d.fsCompileOk = false →
      (load_shaders d vp fp).1 = UniqueGLObject.empty ∧
        GLEvent.logError ("Error compiling fragment shader: " ++ d.fsInfoLog ++ "\n") ∈
          (load_shaders d vp fp).2) ∧
    ((d.vsRaw.isEmpty || d.fsRaw.isEmpty) = false → d.vsCompileOk = true →
      d.fsCompileOk = true → d.linkOk = false →
      (load_shaders d vp fp).1 = UniqueGLObject.empty ∧
        GLEvent.logError ("Error linking shader program: " ++ d.progInfoLog ++ "\n") ∈
          (load_shaders d vp fp).2) ∧
    ((d.vsRaw.isEmpty || d.fsRaw.isEmpty) = false → d.vsCompileOk = true →
      d.fsCompileOk = true → d.linkOk = true → d.initOk = false →
      (load_shaders d vp fp).1 = UniqueGLObject.empty ∧
        (load_shaders d vp fp).2.filter isLog = []) := by
  refine ⟨fun h => ?_, fun h hv => ?_, fun h hv hf => ?_,
    fun h hv hf hl => ?_, fun h hv hf hl hi => ?_⟩
  · rw [load_shaders_empty_case d vp fp h]; simp
  · rw [load_shaders_vs_fail_case d vp fp h hv]; simp
  · rw [load_shaders_fs_fail_case d vp fp h hv hf]; simp
  · rw [load_shaders_link_fail_case d vp fp h hv hf hl]; simp
  · rw [load_shaders_linked_case d vp fp h hv hf hl]
    simp [hi, successTrace, isLog]

/-- Witness for the amended C4 on the vertex-compile-failure driver. -/
theorem failure_reporting_by_mode_witness :
    (dVsFail.vsRaw.isEmpty || dVsFail.fsRaw.isEmpty) = false ∧
      dVsFail.vsCompileOk = false ∧
      ((load_shaders dVsFail "vert.glsl" "frag.glsl").1 = UniqueGLObject.empty ∧
        GLEvent.logError ("Error compiling vertex shader: " ++ dVsFail.vsInfoLog ++ "\n") ∈
          (load_shaders dVsFail "vert.glsl" "frag.glsl").2) :=
  ⟨by decide, by decide,
    (failure_reporting_by_mode dVsFail "vert.glsl" "frag.glsl").2.1 (by decide) (by decide)⟩

/-- C5 counterexample: on a call where both stages compile and the program
links, the wrapper init call can still fail, and then the result is empty
rather than a non-empty owning wrapper. -/
theorem link_success_but_empty_result :
    dInitFail.vsCompileOk = true ∧ dInitFail.fsCompileOk = true ∧
      dInitFail.linkOk = true ∧
      (load_shaders dInitFail "v.glsl" "f.glsl").1 = UniqueGLObject.empty := by
  decide

/-- C5 amended: when both stages compile and the program links, the
function detaches and deletes both intermediate shader objects, and,
provided the wrapper init call also succeeds, returns a non-empty owning
wrapper binding the program handle to glDeleteProgram as its deleter. -/
theorem success_path_detaches_deletes_wraps (d : GLDriver) (vp fp : String)
    (h : (d.vsRaw.isEmpty || d.fsRaw.isEmpty) = false)
    (hv : d.vsCompileOk = true) (hf : d.fsCompileOk = true) (hl : d.linkOk = true) :
    GLEvent.glDetachShader d.progId d.vsId ∈ (load_shaders d vp fp).2 ∧
      GLEvent.glDetachShader d.progId d.fsId ∈ (load_shaders d vp fp).2 ∧
      GLEvent.glDeleteShader d.vsId ∈ (load_shaders d vp fp).2 ∧
      GLEvent.glDeleteShader d.fsId ∈ (load_shaders d vp fp).2 ∧
      (d.initOk = true →
        (load_shaders d vp fp).1 =
          UniqueGLObject.obj d.progId GLDeleter.glDeleteProgram) := by
  rw [load_shaders_linked_case d vp fp h hv hf hl]
  refine ⟨by simp [successTrace], by simp [successTrace], by simp [successTrace],
    by simp [successTrace], fun hi => by simp [hi]⟩

/-- Witness for the amended C5 on the all-success driver. -/
theorem success_path_detaches_deletes_wraps_witness :
    ((dAllOk.vsRaw.isEmpty || dAllOk.fsRaw.isEmpty) = false ∧
      dAllOk.vsCompileOk = true ∧ dAllOk.fsCompileOk = true ∧ dAllOk.linkOk = true) ∧
      (GLEvent.glDetachShader dAllOk.progId dAllOk.vsId ∈
          (load_shaders dAllOk "vert.glsl" "frag.glsl").2 ∧
        GLEvent.glDetachShader dAllOk.progId dAllOk.fsId ∈
          (load_shaders dAllOk "vert.glsl" "frag.glsl").2 ∧
        GLEvent.glDeleteShader dAllOk.vsId ∈
          (load_shaders dAllOk "vert.glsl" "frag.glsl").2 ∧
        GLEvent.glDeleteShader dAllOk.fsId ∈
          (load_shaders dAllOk "vert.glsl" "frag.glsl").2 ∧
        (dAllOk.initOk = true →
          (load_shaders dAllOk "vert.glsl" "frag.glsl").1 =
            UniqueGLObject.obj dAllOk.progId GLDeleter.glDeleteProgram)) :=
  ⟨⟨by decide, by decide, by decide, by decide⟩,
    success_path_detaches_deletes_wraps dAllOk "vert.glsl" "frag.glsl"
      (by decide) (by decide) (by decide) (by decide)⟩

/-- C6: on an empty read the function returns an empty result and the
trace contains no glShaderSource and no glCompileShader call at all. -/
theorem empty_input_no_compiler_calls (d : GLDriver) (vp fp : String)
    (h : (d.vsRaw.isEmpty || d.fsRaw.isEmpty) = true) :
    (load_shaders d vp fp).1 = UniqueGLObject.empty ∧
      (∀ i srcs, GLEvent.glShaderSource i srcs ∉ (load_shaders d vp fp).2) ∧
      (∀ i, GLEvent.glCompileShader i ∉ (load_shaders d vp fp).2) := by
  rw [load_shaders_empty_case d vp fp h]
  simp

/-- Witness for C6 on the empty-fragment driver. -/
theorem empty_input_no_compiler_calls_witness :
    (dEmptyFs.vsRaw.isEmpty || dEmptyFs.fsRaw.isEmpty) = true ∧
      ((load_shaders dEmptyFs "vert.glsl" "frag.glsl").1 = UniqueGLObject.empty ∧
        (∀ i srcs, GLEvent.glShaderSource i srcs ∉
          (load_shaders dEmptyFs "vert.glsl" "frag.glsl").2) ∧
        (∀ i, GLEvent.glCompileShader i ∉
          (load_shaders dEmptyFs "vert.glsl" "frag.glsl").2)) :=
  ⟨by decide, empty_input_no_compiler_calls dEmptyFs "vert.glsl" "frag.glsl" (by decide)⟩

/-- C7: whenever compilation is reached, the vertex stage receives the
source pair preamble-then-file-text, the fragment stage likewise once the
vertex stage compiled, every glShaderSource call anywhere in the trace has
the platform preamble first, and the preamble is the GLES string on the
Android target and the 4.10 core string otherwise. -/
theorem preamble_prepended_to_sources (d : GLDriver) (vp fp : String)
    (h : (d.vsRaw.isEmpty || d.fsRaw.isEmpty) = false) :
    GLEvent.glShaderSource d.vsId [gl_version_string d.android, d.vsRaw] ∈
        (load_shaders d vp fp).2 ∧
      (d.vsCompileOk = true →
        GLEvent.glShaderSource d.fsId [gl_version_string d.android, d.fsRaw] ∈
          (load_shaders d vp fp).2) ∧
      (∀ i srcs, GLEvent.glShaderSource i srcs ∈ (load_shaders d vp fp).2 →
        srcs.head? = some (gl_version_string d.android)) ∧
      gl_version_string true = "#version 300 es\nprecision highp float;\n" ∧
      gl_version_string false = "#version 410 core\n" := by
  rcases Bool.eq_false_or_eq_true d.vsCompileOk with hv | hv
  · rcases Bool.eq_false_or_eq_true d.fsCompileOk with hf | hf
    · rcases Bool.eq_false_or_eq_true d.linkOk with hl | hl
      · rw [load_shaders_linked_case d vp fp h hv hf hl]
        refine ⟨by simp [successTrace], fun _ => by simp [successTrace], ?_,
          by simp [gl_version_string], by simp [gl_version_string]⟩
        intro i srcs hm
        simp only [successTrace, List.mem_cons, List.not_mem_nil, or_false] at hm
        rcases hm with hm | hm | hm | hm | hm | hm | hm | hm | hm | hm | hm | hm | hm | hm | hm | hm <;>
          first
            | (cases hm; rfl)
            | exact absurd hm (by simp)
      · rw [load_shaders_link_fail_case d vp fp h hv hf hl]
        refine ⟨by simp, fun _ => by simp, ?_, by simp [gl_version_string],
          by simp [gl_version_string]⟩
        intro i srcs hm
        simp only [List.mem_cons, List.not_mem_nil, or_false] at hm
        rcases hm with hm | hm | hm | hm | hm | hm | hm | hm | hm | hm | hm | hm | hm <;>
          first
            | (cases hm; rfl)
            | exact absurd hm (by simp)
    · rw [load_shaders_fs_fail_case d vp fp h hv hf]
      refine ⟨by simp, fun _ => by simp, ?_, by simp [gl_version_string],
        by simp [gl_version_string]⟩
      intro i srcs hm
      simp only [List.mem_cons, List.not_mem_nil, or_false] at hm
      rcases hm with hm | hm | hm | hm | hm | hm | hm | hm | hm <;>
        first
          | (cases hm; rfl)
          | exact absurd hm (by simp)
  · rw [load_shaders_vs_fail_case d vp fp h hv]
    refine ⟨by simp, by simp [hv], ?_,
      by simp [gl_version_string], by simp [gl_version_string]⟩
    intro i srcs hm
    simp only [List.mem_cons, List.not_mem_nil, or_false] at hm
    rcases hm with hm | hm | hm | hm | hm | hm | hm <;>
      first
        | (cases hm; rfl)
        | exact absurd hm (by simp)

/-- Witness for C7 on the all-success driver. -/
theorem preamble_prepended_to_sources_witness :
    (dAllOk.vsRaw.isEmpty || dAllOk.fsRaw.isEmpty) = false ∧
      (GLEvent.glShaderSource dAllOk.vsId [gl_version_string dAllOk.android, dAllOk.vsRaw] ∈
          (load_shaders dAllOk "vert.glsl" "frag.glsl").2 ∧
        (dAllOk.vsCompileOk = true →
          GLEvent.glShaderSource dAllOk.fsId [gl_version_string dAllOk.android, dAllOk.fsRaw] ∈
            (load_shaders dAllOk "vert.glsl" "frag.glsl").2) ∧
        (∀ i srcs, GLEvent.glShaderSource i srcs ∈
            (load_shaders dAllOk "vert.glsl" "frag.glsl").2 →
          srcs.head? = some (gl_version_string dAllOk.android)) ∧
        gl_version_string true = "#version 300 es\nprecision highp float;\n" ∧
        gl_version_string false = "#version 410 core\n") :=
  ⟨by decide, preamble_prepended_to_sources dAllOk "vert.glsl" "frag.glsl" (by decide)⟩

/-- C8: control flow is one linear pass and a failure is terminal.  The
driver calls any run performs (its trace with log messages removed) form a
prefix of the full success-order call sequence, so the stages always run in
the fixed source order and no stage repeats; and the result is empty
exactly when that prefix is proper (some stage was never reached) or the
final wrapper init call fails, so a failure ends the call.  At most one
log message is ever emitted, so no retry occurs. -/
theorem linear_control_flow (d : GLDriver) (vp fp : String) :
    (∃ rest, ((load_shaders d vp fp).2.filter (fun e => !isLog e)) ++ rest =
        successTrace d vp fp) ∧
      ((load_shaders d vp fp).1 = UniqueGLObject.empty ↔
        (((load_shaders d vp fp).2.filter (fun e => !isLog e)).length <
            (successTrace d vp fp).length ∨ d.initOk = false)) ∧
      ((load_shaders d vp fp).2.filter isLog).length ≤ 1 := by
  rcases Bool.eq_false_or_eq_true (d.vsRaw.isEmpty || d.fsRaw.isEmpty) with he | he
  · rw [load_shaders_empty_case d vp fp he]
    exact ⟨⟨[GLEvent.glShaderSource d.vsId [gl_version_string d.android, d.vsRaw],
        GLEvent.glCompileShader d.vsId,
        GLEvent.glShaderSource d.fsId [gl_version_string d.android, d.fsRaw],
        GLEvent.glCompileShader d.fsId,
        GLEvent.glCreateProgram d.progId,
        GLEvent.glAttachShader d.progId d.vsId, GLEvent.glAttachShader d.progId d.fsId,
        GLEvent.glLinkProgram d.progId,
        GLEvent.glDetachShader d.progId d.vsId, GLEvent.glDetachShader d.progId d.fsId,
        GLEvent.glDeleteShader d.vsId, GLEvent.glDeleteShader d.fsId],
      by simp [successTrace, isLog]⟩,
      by simp [successTrace, isLog], by simp [isLog]⟩
  · rcases Bool.eq_false_or_eq_true d.vsCompileOk with hv | hv
    · rcases Bool.eq_false_or_eq_true d.fsCompileOk with hf | hf
      · rcases Bool.eq_false_or_eq_true d.linkOk with hl | hl
        · rw [load_shaders_linked_case d vp fp he hv hf hl]
          refine ⟨⟨[], by simp [successTrace, isLog]⟩, ?_,
            by simp [successTrace, isLog]⟩
          rcases Bool.eq_false_or_eq_true d.initOk with hi | hi <;>
            simp [hi, successTrace, isLog]
        · rw [load_shaders_link_fail_case d vp fp he hv hf hl]
          exact ⟨⟨[GLEvent.glDetachShader d.progId d.vsId,
              GLEvent.glDetachShader d.progId d.fsId,
              GLEvent.glDeleteShader d.vsId, GLEvent.glDeleteShader d.fsId],
            by simp [successTrace, isLog]⟩,
            by simp [successTrace, isLog], by simp [isLog]⟩
      · rw [load_shaders_fs_fail_case d vp fp he hv hf]
        exact ⟨⟨[GLEvent.glCreateProgram d.progId,
            GLEvent.glAttachShader d.progId d.vsId, GLEvent.glAttachShader d.progId d.fsId,
            GLEvent.glLinkProgram d.progId,
            GLEvent.glDetachShader d.progId d.vsId, GLEvent.glDetachShader d.progId d.fsId,
            GLEvent.glDeleteShader d.vsId, GLEvent.glDeleteShader d.fsId],
          by simp [successTrace, isLog]⟩,
          by simp [successTrace, isLog], by simp [isLog]⟩
    · rw [load_shaders_vs_fail_case d vp fp he hv]
      exact ⟨⟨[GLEvent.glShaderSource d.fsId [gl_version_string d.android, d.fsRaw],
          GLEvent.glCompileShader d.fsId,
          GLEvent.glCreateProgram d.progId,
          GLEvent.glAttachShader d.progId d.vsId, GLEvent.glAttachShader d.progId d.fsId,
          GLEvent.glLinkProgram d.progId,
          GLEvent.glDetachShader d.progId d.vsId, GLEvent.glDetachShader d.progId d.fsId,
          GLEvent.glDeleteShader d.vsId, GLEvent.glDeleteShader d.fsId],
        by simp [successTrace, isLog]⟩,
        by simp [successTrace, isLog], by simp [isLog]⟩

/-- C9: on the empty-read failure path the log message always names the
vertex file path, whichever of the two reads came back empty. -/
theorem empty_log_names_vertex_path (d : GLDriver) (vp fp : String)
    (h : (d.vsRaw.isEmpty || d.fsRaw.isEmpty) = true) :
    GLEvent.logError ("Couldn\x27t open shader: " ++ vp) ∈ (load_shaders d vp fp).2 := by
  rw [load_shaders_empty_case d vp fp h]
  simp

/-- Witness for C9: the fragment file is the empty one and the vertex file
read back nonempty, yet the log names the vertex path. -/
theorem empty_log_names_vertex_path_witness :
    ((dEmptyFs.vsRaw.isEmpty = false ∧ dEmptyFs.fsRaw.isEmpty = true) ∧
      (dEmptyFs.vsRaw.isEmpty || dEmptyFs.fsRaw.isEmpty) = true) ∧
      GLEvent.logError ("Couldn\x27t open shader: " ++ "vert.glsl") ∈
        (load_shaders dEmptyFs "vert.glsl" "frag.glsl").2 :=
  ⟨⟨by decide, by decide⟩,
    empty_log_names_vertex_path dEmptyFs "vert.glsl" "frag.glsl" (by decide)⟩

/-- C10: when both stages compile, the program links, and the wrapper init
call fails, the function returns an empty result, emits no log message,
and never calls glDeleteProgram, although glLinkProgram had run; this is a
fourth, silent failure mode. -/
theorem init_failure_silent_no_delete (d : GLDriver) (vp fp : String)
    (h : (d.vsRaw.isEmpty || d.fsRaw.isEmpty) = false)
    (hv : d.vsCompileOk = true) (hf : d.fsCompileOk = true) (hl : d.linkOk = true)
    (hi : d.initOk = false) :
    (load_shaders d vp fp).1 = UniqueGLObject.empty ∧
      (load_shaders d vp fp).2.filter isLog = [] ∧
      (∀ i, GLEvent.glDeleteProgram i ∉ (load_shaders d vp fp).2) ∧
      GLEvent.glLinkProgram d.progId ∈ (load_shaders d vp fp).2 := by
  rw [load_shaders_linked_case d vp fp h hv hf hl]
  simp [hi, successTrace, isLog]

/-- Witness for C10 on the init-failure driver. -/
theorem init_failure_silent_no_delete_witness :
    ((dInitFail.vsRaw.isEmpty || dInitFail.fsRaw.isEmpty) = false ∧
      dInitFail.vsCompileOk = true ∧ dInitFail.fsCompileOk = true ∧
      dInitFail.linkOk = true ∧ dInitFail.initOk = false) ∧
      ((load_shaders dInitFail "vert.glsl" "frag.glsl").1 = UniqueGLObject.empty ∧
        (load_shaders dInitFail "vert.glsl" "frag.glsl").2.filter isLog = [] ∧
        (∀ i, GLEvent.glDeleteProgram i ∉
          (load_shaders dInitFail "vert.glsl" "frag.glsl").2) ∧
        GLEvent.glLinkProgram dInitFail.progId ∈
          (load_shaders dInitFail "vert.glsl" "frag.glsl").2) :=
  ⟨⟨by decide, by decide, by decide, by decide, by decide⟩,
    init_failure_silent_no_delete dInitFail "vert.glsl" "frag.glsl"
      (by decide) (by decide) (by decide) (by decide) (by decide)⟩

end gl
